import Mathlib

/-!
Verification of the `go-chi-restful` repository: a minimal HTTP server
exposing a `/posts` resource (List via GET, Create via POST) that proxies to
an upstream JSON API, plus a root route and port selection from the `PORT`
environment variable.

Embedding choices:
* JSON documents are modelled as an abstract syntax tree `Json` (numbers as
  `Int`, which covers every number occurring in the program).
* A wire body (a byte stream) is modelled as `Body`: either the rendering of
  a JSON document (`Body.json j`) or raw bytes that are not valid JSON
  (`Body.raw s`).
* Go's `encoding/json` `Unmarshal` into the `Post` / `PostWithoutId` structs
  is modelled field by field: object keys are matched to struct fields
  case-insensitively, unknown keys are ignored, missing fields keep the Go
  zero value, a type mismatch on a matching key is a decode error (`none`),
  JSON `null` leaves the target at its zero value, and later duplicate keys
  overwrite earlier ones.
* A Go panic (`log.Panicf`) is modelled as `Option.none`; a Go
  `(resp, error)` pair is modelled as `Except String HttpResponse`.
-/

inductive Json where
  | null : Json
  | bool : Bool → Json
  | num : Int → Json
  | str : String → Json
  | arr : List Json → Json
  | obj : List (String × Json) → Json

/-- The fully populated post record (`type Post struct` in the routes
package): identifier, owner identifier, title, body. -/
structure Post where
  Id : Int
  UserId : Int
  Title : String
  Body : String
deriving DecidableEq

/-- The creation-request record (`type PostWithoutId struct`): owner
identifier, title, body, with no identifier. -/
structure PostWithoutId where
  UserId : Int
  Title : String
  Body : String
deriving DecidableEq

/-- Go zero value of `PostWithoutId`: integer fields 0, string fields "". -/
def zeroPostWithoutId : PostWithoutId :=
  { UserId := 0, Title := "", Body := "" }

/-- Go zero value of `Post`. -/
def zeroPost : Post :=
  { Id := 0, UserId := 0, Title := "", Body := "" }

/-- `json.Marshal` of a `Post`: Go marshals exported struct fields in
declaration order under their field names (there are no struct tags). -/
def marshalPost (p : Post) : Json :=
  .obj [("Id", .num p.Id), ("UserId", .num p.UserId),
        ("Title", .str p.Title), ("Body", .str p.Body)]

/-- `json.Marshal` of a `PostWithoutId`. -/
def marshalPostWithoutId (p : PostWithoutId) : Json :=
  .obj [("UserId", .num p.UserId), ("Title", .str p.Title), ("Body", .str p.Body)]

/-- `json.Marshal` of a `[]Post`: a JSON array of the marshalled records. -/
def marshalPosts (l : List Post) : Json :=
  .arr (l.map marshalPost)

/-- Case-insensitive key comparison, as used by `encoding/json` to match an
incoming object key to a struct field name. -/
def ciEq (a b : String) : Bool :=
  a.data.map Char.toLower == b.data.map Char.toLower

/-- Does the JSON object field list contain a key matching `t`
(case-insensitively)? -/
def hasKeyCI (kvs : List (String × Json)) (t : String) : Bool :=
  kvs.any (fun kv => ciEq kv.1 t)

/-- One step of `json.Unmarshal` into a `PostWithoutId`: assign one incoming
object member to the matching struct field, fail on a type mismatch, ignore
unknown keys. -/
def unmarshalPWIStep (acc : PostWithoutId) (kv : String × Json) : Option PostWithoutId :=
  if ciEq kv.1 "UserId" then
    match kv.2 with
    | .num n => some { acc with UserId := n }
    | _ => none
  else if ciEq kv.1 "Title" then
    match kv.2 with
    | .str s => some { acc with Title := s }
    | _ => none
  else if ciEq kv.1 "Body" then
    match kv.2 with
    | .str s => some { acc with Body := s }
    | _ => none
  else
    some acc

/-- `json.Unmarshal` of a document into a `PostWithoutId` variable: an object
is folded member by member over the zero value, `null` is a no-op leaving the
zero value, anything else is a decode error. -/
def unmarshalPostWithoutId (j : Json) : Option PostWithoutId :=
  match j with
  | .null => some zeroPostWithoutId
  | .obj kvs => kvs.foldlM unmarshalPWIStep zeroPostWithoutId
  | _ => none

/-- One step of `json.Unmarshal` into a `Post`. -/
def unmarshalPostStep (acc : Post) (kv : String × Json) : Option Post :=
  if ciEq kv.1 "Id" then
    match kv.2 with
    | .num n => some { acc with Id := n }
    | _ => none
  else if ciEq kv.1 "UserId" then
    match kv.2 with
    | .num n => some { acc with UserId := n }
    | _ => none
  else if ciEq kv.1 "Title" then
    match kv.2 with
    | .str s => some { acc with Title := s }
    | _ => none
  else if ciEq kv.1 "Body" then
    match kv.2 with
    | .str s => some { acc with Body := s }
    | _ => none
  else
    some acc

/-- `json.Unmarshal` of a document into a `Post` variable. -/
def unmarshalPost (j : Json) : Option Post :=
  match j with
  | .null => some zeroPost
  | .obj kvs => kvs.foldlM unmarshalPostStep zeroPost
  | _ => none

/-- `json.Unmarshal` of a document into a `[]Post` variable: an array is
decoded elementwise, `null` gives the nil slice. -/
def unmarshalPosts (j : Json) : Option (List Post) :=
  match j with
  | .null => some []
  | .arr es => es.mapM unmarshalPost
  | _ => none

/-- A wire body: either the rendered bytes of a JSON document, or raw bytes
that do not parse as JSON (such as the plain-text root response). -/
inductive Body where
  | json : Json → Body
  | raw : String → Body

/-- Parsing a wire body as JSON: the rendering of `j` parses back to `j`,
raw non-JSON bytes fail to parse. -/
def parseBody : Body → Option Json
  | .json j => some j
  | .raw _ => none

/-- A minimal upstream HTTP response, as built by the fixtures: a status
code and a body stream (`http.Response` restricted to the fields used). -/
structure HttpResponse where
  statusCode : Nat
  body : Body

/-- The response a handler writes to the client: status code and body. -/
structure HandlerResponse where
  status : Nat
  body : Body

/-- The single mocked post record built inside `JsonPlaceholderMock.GetPosts`. -/
def mockedPost : Post :=
  { Id := 1, UserId := 2, Title := "Hello World", Body := "Foo Bar" }

/-- The fixture `(*JsonPlaceholderMock).GetPosts`: marshals the one-element
slice `[mockedPost]` and returns a 200 response carrying it, with a nil
error. (The marshal-error panic branch is dead: marshalling is total here.) -/
def JsonPlaceholderMock.GetPosts : Except String HttpResponse :=
  .ok { statusCode := 200, body := .json (marshalPosts [mockedPost]) }

/-- The fixture `(*JsonPlaceholderMock).CreatePost`: reads the request body,
unmarshals it into a `PostWithoutId` (panicking on a decode error, modelled
as `none`), builds the created `Post` with `Id := 101` echoing the decoded
fields, and returns a 200 response carrying its marshalling. -/
def JsonPlaceholderMock.CreatePost (reqBody : Body) : Option (Except String HttpResponse) :=
  match parseBody reqBody with
  | none => none
  | some j =>
    match unmarshalPostWithoutId j with
    | none => none
    | some reqPost =>
      let newPost : Post :=
        { Id := 101, UserId := reqPost.UserId, Title := reqPost.Title, Body := reqPost.Body }
      some (.ok { statusCode := 200, body := .json (marshalPost newPost) })

/-- Modelled from the spec: the `routes` package handler
`PostsResource.List` is not among the source files (only its tests are).
Spec section 4.2: the handler invokes the substitutable upstream call; on a
transport-level error or a response body that fails to decode as a sequence
of `Post` records it surfaces a 5xx status instead of crashing; on success
it writes the upstream body to the client with the original status code. -/
def PostsResource.List (upstream : Except String HttpResponse) : HandlerResponse :=
  match upstream with
  | .error _ => { status := 500, body := .raw "Internal Server Error" }
  | .ok resp =>
    match parseBody resp.body >>= unmarshalPosts with
    | none => { status := 500, body := .raw "Internal Server Error" }
    | some _ => { status := resp.statusCode, body := resp.body }

/-- Modelled from the spec: the `routes` package handler
`PostsResource.Create` is not among the source files (only its tests are).
Spec section 4.3: the handler reads the full request body, forwards it to
the substitutable upstream creation call, decodes the upstream response body
as the newly created `Post`, and re-encodes it as the HTTP response body
with status 200; an upstream transport failure or a malformed upstream
response body yields a 5xx. A panic in the upstream fixture (`none`)
propagates. -/
def PostsResource.Create (upstream : Body → Option (Except String HttpResponse))
    (reqBody : Body) : Option HandlerResponse :=
  match upstream reqBody with
  | none => none
  | some (.error _) => some { status := 500, body := .raw "Internal Server Error" }
  | some (.ok resp) =>
    match parseBody resp.body >>= unmarshalPost with
    | none => some { status := 500, body := .raw "Internal Server Error" }
    | some post => some { status := 200, body := .json (marshalPost post) }

/-- HTTP methods relevant to the routing claims. -/
inductive Method where
  | GET | POST | PUT | DELETE | PATCH | HEAD | OPTIONS
deriving DecidableEq

/-- The two substitutable upstream client functions, the package-level
variables `GetPosts` and `CreatePost` of the routes package. -/
structure Upstream where
  getPosts : Except String HttpResponse
  createPost : Body → Option (Except String HttpResponse)

/-- The upstream assignment the tests install: both package-level variables
point at the `JsonPlaceholderMock` fixtures. -/
def mockUpstream : Upstream :=
  { getPosts := JsonPlaceholderMock.GetPosts
    createPost := JsonPlaceholderMock.CreatePost }

/-- The router built in `main`: `GET /` answers 200 `"Hello World!"`, and the
posts sub-router is mounted at `/posts` with `GET /` bound to List and
`POST /` bound to Create (the sub-router registration `PostsResource.Routes`
is modelled from the spec, section 4.1, since the routes package source is
not among the source files). Unmatched paths fall to the chi router's
default not-found handler (404) and a matched path with an unregistered
method to its default method-not-allowed handler (405). -/
def mainRouter (up : Upstream) (m : Method) (path : String) (reqBody : Body) :
    Option HandlerResponse :=
  if path = "/" then
    if m = .GET then some { status := 200, body := .raw "Hello World!" }
    else some { status := 405, body := .raw "" }
  else if path = "/posts" ∨ path = "/posts/" then
    if m = .GET then some (PostsResource.List up.getPosts)
    else if m = .POST then PostsResource.Create up.createPost reqBody
    else some { status := 405, body := .raw "" }
  else
    some { status := 404, body := .raw "404 page not found" }

/-- Port selection in `main`: `port` starts as `"8080"` and is replaced by
the value of the `PORT` environment variable when that value is non-empty
(`os.Getenv` returns `""` for an unset variable, modelled as `none`). -/
def resolvePort (env : Option String) : String :=
  let fromEnv := env.getD ""
  if fromEnv ≠ "" then fromEnv else "8080"

/-- The request body marshalled by `TestCreatePost`:
`{"UserId":1,"Title":"Hello World","Body":"Foo Bar"}`. -/
def createRequestBody : Body :=
  .json (marshalPostWithoutId { UserId := 1, Title := "Hello World", Body := "Foo Bar" })

/-- Unmarshalling undoes marshalling of a `Post`: the fixture's response
body always decodes back to the record it encoded. -/
theorem unmarshalPost_marshalPost (q : Post) : unmarshalPost (marshalPost q) = some q := rfl

/-- C1: for a GET to the posts path with the `JsonPlaceholderMock.GetPosts`
fixture installed, the List handler responds with status 200 and a body that
decodes as a JSON array of length 1 containing the mocked record unchanged. -/
theorem list_with_mock_returns_singleton :
    (PostsResource.List JsonPlaceholderMock.GetPosts).status = 200 ∧
    (parseBody (PostsResource.List JsonPlaceholderMock.GetPosts).body >>= unmarshalPosts)
      = some [mockedPost] :=
  ⟨rfl, rfl⟩

/-- C2: for a POST to the posts path with body
`{"UserId":1,"Title":"Hello World","Body":"Foo Bar"}` and the
`JsonPlaceholderMock.CreatePost` fixture installed, the Create handler
responds with status 200 and a body that decodes to a `Post` with `Id = 101`. -/
theorem create_with_mock_returns_id_101 :
    PostsResource.Create JsonPlaceholderMock.CreatePost createRequestBody =
      some { status := 200,
             body := .json (marshalPost
               { Id := 101, UserId := 1, Title := "Hello World", Body := "Foo Bar" }) } ∧
    ((PostsResource.Create JsonPlaceholderMock.CreatePost createRequestBody).bind
        (fun r => parseBody r.body >>= unmarshalPost)).map Post.Id = some 101 :=
  ⟨rfl, rfl⟩

/-- C4: two GET requests to `/posts` dispatched with the same upstream
functions installed produce identical responses (same status, same body);
the handler is a pure function of the installed upstream, independent of the
request body. -/
theorem repeated_get_posts_identical (up : Upstream) (b b2 : Body) :
    mainRouter up .GET "/posts" b = mainRouter up .GET "/posts" b2 := rfl

/-- C6: a GET request to the root path returns status 200 with the exact
body "Hello World!". -/
theorem root_get_hello_world (up : Upstream) (b : Body) :
    mainRouter up .GET "/" b = some { status := 200, body := .raw "Hello World!" } := rfl

/-- C7: the listen port is the value of the `PORT` environment variable when
that is set and non-empty, and "8080" otherwise. -/
theorem port_selection :
    resolvePort none = "8080" ∧ resolvePort (some "") = "8080" ∧
    ∀ s : String, s ≠ "" → resolvePort (some s) = s := by
  refine ⟨rfl, rfl, fun s h => ?_⟩
  simp [resolvePort, h]

/-- Witness for C7 at the concrete value "3000". -/
theorem port_selection_witness : resolvePort (some "3000") = "3000" :=
  port_selection.2.2 "3000" (by decide)

/-- C5: whenever the upstream call gives a transport-level error or a
response body that is not valid JSON, the List handler answers with a 5xx
status (it is a total function: no crash). -/
theorem list_upstream_failure_5xx (u : Except String HttpResponse)
    (h : (∃ e, u = .error e) ∨ ∃ r, u = .ok r ∧ parseBody r.body = none) :
    500 ≤ (PostsResource.List u).status ∧ (PostsResource.List u).status ≤ 599 := by
  have hs : (PostsResource.List u).status = 500 := by
    rcases h with ⟨e, rfl⟩ | ⟨r, rfl, hb⟩
    · rfl
    · simp [PostsResource.List, hb]
  rw [hs]
  exact ⟨by norm_num, by norm_num⟩

/-- Witness for C5 at a concrete transport error. -/
theorem list_upstream_failure_5xx_witness :
    500 ≤ (PostsResource.List (.error "connection refused")).status ∧
    (PostsResource.List (.error "connection refused")).status ≤ 599 :=
  list_upstream_failure_5xx (.error "connection refused")
    (Or.inl ⟨"connection refused", rfl⟩)

/-- C8: a request to a path with no registered route gets a 404 response,
and a request to `/posts` with a method other than GET or POST gets a 405
response. -/
theorem router_unmatched_404_405 (up : Upstream) (m : Method) (p : String) (b : Body) :
    (p ≠ "/" → p ≠ "/posts" → p ≠ "/posts/" →
      mainRouter up m p b = some { status := 404, body := .raw "404 page not found" }) ∧
    (m ≠ .GET → m ≠ .POST →
      mainRouter up m "/posts" b = some { status := 405, body := .raw "" }) := by
  constructor
  · intro h1 h2 h3
    simp [mainRouter, h1, h2, h3]
  · intro hg hp
    simp [mainRouter, hg, hp]

/-- Witness for C8: PUT to an unknown path gets 404, PUT to `/posts` gets 405. -/
theorem router_unmatched_404_405_witness :
    mainRouter mockUpstream .PUT "/nope" (.raw "") =
      some { status := 404, body := .raw "404 page not found" } ∧
    mainRouter mockUpstream .PUT "/posts" (.raw "") =
      some { status := 405, body := .raw "" } :=
  ⟨(router_unmatched_404_405 mockUpstream .PUT "/nope" (.raw "")).1
      (by decide) (by decide) (by decide),
   (router_unmatched_404_405 mockUpstream .PUT "/posts" (.raw "")).2
      (by decide) (by decide)⟩

/-- C3: for every request body that decodes to a `PostWithoutId`, the Create
handler run against the `JsonPlaceholderMock.CreatePost` fixture answers 200
with the created record carrying `Id = 101` and the payload's owner
identifier, title and body unchanged. -/
theorem create_roundtrip (b : Body) (p : PostWithoutId)
    (h : (parseBody b >>= unmarshalPostWithoutId) = some p) :
    PostsResource.Create JsonPlaceholderMock.CreatePost b =
      some { status := 200,
             body := .json (marshalPost
               { Id := 101, UserId := p.UserId, Title := p.Title, Body := p.Body }) } := by
  cases b with
  | raw s => simp [parseBody] at h
  | json j =>
    have h2 : unmarshalPostWithoutId j = some p := h
    simp [PostsResource.Create, JsonPlaceholderMock.CreatePost, parseBody, h2,
      unmarshalPost_marshalPost]

/-- Witness for C3 at the concrete test payload. -/
theorem create_roundtrip_witness :
    PostsResource.Create JsonPlaceholderMock.CreatePost createRequestBody =
      some { status := 200,
             body := .json (marshalPost
               { Id := 101, UserId := 1, Title := "Hello World", Body := "Foo Bar" }) } :=
  create_roundtrip createRequestBody { UserId := 1, Title := "Hello World", Body := "Foo Bar" } rfl

/-- C9: whenever the `JsonPlaceholderMock.CreatePost` fixture returns at all,
the returned response carries a marshalled `Post` whose `Id` is 101, whatever
the request body contained. -/
theorem mock_create_assigns_id_101 (b : Body) (res : Except String HttpResponse)
    (h : JsonPlaceholderMock.CreatePost b = some res) :
    ∃ r q, res = .ok r ∧ parseBody r.body = some (marshalPost q) ∧ q.Id = 101 := by
  cases b with
  | raw s => simp [JsonPlaceholderMock.CreatePost, parseBody] at h
  | json j =>
    cases hu : unmarshalPostWithoutId j with
    | none => simp [JsonPlaceholderMock.CreatePost, parseBody, hu] at h
    | some p =>
      simp [JsonPlaceholderMock.CreatePost, parseBody, hu] at h
      exact ⟨_, { Id := 101, UserId := p.UserId, Title := p.Title, Body := p.Body },
        h.symm, rfl, rfl⟩

/-- Witness for C9 at the concrete test payload. -/
theorem mock_create_assigns_id_101_witness :
    ∃ r q,
      (Except.ok { statusCode := 200,
                   body := .json (marshalPost
                     { Id := 101, UserId := 1, Title := "Hello World", Body := "Foo Bar" }) }
        : Except String HttpResponse) = .ok r ∧
      parseBody r.body = some (marshalPost q) ∧ q.Id = 101 :=
  mock_create_assigns_id_101 createRequestBody _ rfl

/-- A valid JSON object that is missing the `UserId` and `Body` keys but
whose `Title` member is a number, not a string. -/
def missingFieldsObj : List (String × Json) := [("Title", Json.num 5)]

/-- C10 counterexample: `missingFieldsObj` is a valid JSON object missing
the `UserId` and `Body` keys, yet `JsonPlaceholderMock.CreatePost` does not
succeed with a 200 response on it: the unmarshal of its `Title` member
fails, so the fixture panics (modelled as `none`). -/
theorem mock_create_missing_fields_panic :
    hasKeyCI missingFieldsObj "UserId" = false ∧
    hasKeyCI missingFieldsObj "Body" = false ∧
    JsonPlaceholderMock.CreatePost (.json (.obj missingFieldsObj)) = none :=
  ⟨rfl, rfl, rfl⟩

/-- A single unmarshal step leaves every field whose name does not match the
incoming key unchanged. -/
theorem unmarshalPWIStep_preserve (acc a : PostWithoutId) (kv : String × Json)
    (h : unmarshalPWIStep acc kv = some a) :
    (ciEq kv.1 "UserId" = false → a.UserId = acc.UserId) ∧
    (ciEq kv.1 "Title" = false → a.Title = acc.Title) ∧
    (ciEq kv.1 "Body" = false → a.Body = acc.Body) := by
  unfold unmarshalPWIStep at h
  split at h
  · split at h
    · obtain rfl : _ = a := Option.some.inj h
      simp_all
    · exact Option.noConfusion h
  · split at h
    · split at h
      · obtain rfl : _ = a := Option.some.inj h
        simp_all
      · exact Option.noConfusion h
    · split at h
      · split at h
        · obtain rfl : _ = a := Option.some.inj h
          simp_all
        · exact Option.noConfusion h
      · obtain rfl : _ = a := Option.some.inj h
        simp_all

/-- Folding the unmarshal steps over an object that contains no key matching
a given field name leaves that field at its initial value. -/
theorem foldlM_pwi_preserve (kvs : List (String × Json)) (acc p : PostWithoutId)
    (h : List.foldlM unmarshalPWIStep acc kvs = some p) :
    (hasKeyCI kvs "UserId" = false → p.UserId = acc.UserId) ∧
    (hasKeyCI kvs "Title" = false → p.Title = acc.Title) ∧
    (hasKeyCI kvs "Body" = false → p.Body = acc.Body) := by
  induction kvs generalizing acc with
  | nil =>
    simp [List.foldlM] at h
    subst h
    exact ⟨fun _ => rfl, fun _ => rfl, fun _ => rfl⟩
  | cons kv rest ih =>
    cases hstep : unmarshalPWIStep acc kv with
    | none => simp [List.foldlM, hstep] at h
    | some a =>
      have hrest : List.foldlM unmarshalPWIStep a rest = some p := by
        simpa [List.foldlM, hstep] using h
      have h1 := unmarshalPWIStep_preserve acc a kv hstep
      have h2 := ih a hrest
      refine ⟨fun hk => ?_, fun hk => ?_, fun hk => ?_⟩ <;>
        simp only [hasKeyCI, List.any_cons, Bool.or_eq_false_iff] at hk
      · rw [h2.1 hk.2, h1.1 hk.1]
      · rw [h2.2.1 hk.2, h1.2.1 hk.1]
      · rw [h2.2.2 hk.2, h1.2.2 hk.1]

/-- C10 (amended): for every request body that is a valid JSON object whose
members unmarshal without a type mismatch, `JsonPlaceholderMock.CreatePost`
succeeds with a 200 response, and each of the `UserId`, `Title`, `Body`
fields with no matching key in the object appears in the created record as
its Go zero value. -/
theorem mock_create_missing_fields_zero (kvs : List (String × Json)) (p : PostWithoutId)
    (h : unmarshalPostWithoutId (.obj kvs) = some p) :
    JsonPlaceholderMock.CreatePost (.json (.obj kvs)) =
      some (.ok { statusCode := 200,
                  body := .json (marshalPost
                    { Id := 101, UserId := p.UserId, Title := p.Title, Body := p.Body }) }) ∧
    (hasKeyCI kvs "UserId" = false → p.UserId = 0) ∧
    (hasKeyCI kvs "Title" = false → p.Title = "") ∧
    (hasKeyCI kvs "Body" = false → p.Body = "") := by
  have hf : List.foldlM unmarshalPWIStep zeroPostWithoutId kvs = some p := h
  have hp := foldlM_pwi_preserve kvs zeroPostWithoutId p hf
  refine ⟨?_, hp.1, hp.2.1, hp.2.2⟩
  simp [JsonPlaceholderMock.CreatePost, parseBody, h]

/-- Witness for C10 (amended) at an object carrying only a `Title` member. -/
theorem mock_create_missing_fields_zero_witness :
    JsonPlaceholderMock.CreatePost (.json (.obj [("Title", Json.str "t")])) =
      some (.ok { statusCode := 200,
                  body := .json (marshalPost
                    { Id := 101, UserId := 0, Title := "t", Body := "" }) }) ∧
    (0 : Int) = 0 ∧ ("" : String) = "" := by
  have h := mock_create_missing_fields_zero [("Title", Json.str "t")]
    { UserId := 0, Title := "t", Body := "" } rfl
  exact ⟨h.1, h.2.1 rfl, h.2.2.2 rfl⟩
